import Mathlib

/-!
Shallow embedding of the streaming invocation and protocol-translation layer of
the Databricks GenAI app template:

* `src/server/services/agents/handlers/databricks_endpoint.py`
  (mojibake repair, chat-completion chunk conversion, SSE formatting,
   endpoint-format cache, probe-and-fallback worker, queue consumer), and
* `src/server/routers/agent.py` (the `invoke_endpoint` dispatcher).

Python strings are modelled as lists of Unicode code points, Python dicts of
JSON-like data as association lists, and Python exceptions as `Except` values.
The upstream MLflow deployments client is modelled as an oracle mapping a
request payload to the stream it produces.
-/

namespace DbxApp

/-- A Python string, as its list of Unicode code points. -/
abbrev PyStr := List Nat

/-- Embed a Lean string literal as a `PyStr`. -/
def pystr (s : String) : PyStr := s.data.map Char.toNat

/-- The apostrophe code point, used in upstream error-signature literals. -/
def apos : PyStr := [39]

/-- Is `b` a UTF-8 continuation byte (`0x80..0xBF`)? -/
def utf8Cont (b : Nat) : Bool := 0x80 ≤ b && b ≤ 0xBF

mutual

/-- Strict UTF-8 decoder on a byte list, as Python `bytes.decode('utf-8')`:
rejects stray continuation bytes, truncated sequences, overlong encodings,
surrogate code points and code points above `U+10FFFF`.  Lead bytes select
the sequence length, handled by one helper per length. -/
def utf8Decode : List Nat → Option (List Nat)
  | [] => some []
  | b :: bs =>
    if b ≤ 0x7F then (utf8Decode bs).map (b :: ·)
    else if b ≤ 0xBF then none
    else if b ≤ 0xDF then utf8Dec2 b bs
    else if b ≤ 0xEF then utf8Dec3 b bs
    else if b ≤ 0xF4 then utf8Dec4 b bs
    else none

/-- Continuation of a two-byte UTF-8 sequence with lead byte `b`. -/
def utf8Dec2 (b : Nat) : List Nat → Option (List Nat)
  | b1 :: bs1 =>
    let cp := (b - 0xC0) * 0x40 + (b1 - 0x80)
    if utf8Cont b1 && decide (0x80 ≤ cp) then (utf8Decode bs1).map (cp :: ·)
    else none
  | [] => none

/-- Continuation of a three-byte UTF-8 sequence with lead byte `b`. -/
def utf8Dec3 (b : Nat) : List Nat → Option (List Nat)
  | b1 :: b2 :: bs2 =>
    let cp := (b - 0xE0) * 0x1000 + (b1 - 0x80) * 0x40 + (b2 - 0x80)
    if utf8Cont b1 && utf8Cont b2 && decide (0x800 ≤ cp) &&
        !(decide (0xD800 ≤ cp) && decide (cp ≤ 0xDFFF)) then
      (utf8Decode bs2).map (cp :: ·)
    else none
  | _ => none

/-- Continuation of a four-byte UTF-8 sequence with lead byte `b`. -/
def utf8Dec4 (b : Nat) : List Nat → Option (List Nat)
  | b1 :: b2 :: b3 :: bs3 =>
    let cp := (b - 0xF0) * 0x40000 + (b1 - 0x80) * 0x1000 +
      (b2 - 0x80) * 0x40 + (b3 - 0x80)
    if utf8Cont b1 && utf8Cont b2 && utf8Cont b3 &&
        decide (0x10000 ≤ cp) && decide (cp ≤ 0x10FFFF) then
      (utf8Decode bs3).map (cp :: ·)
    else none
  | _ => none

end

/-- Python `text.encode('latin-1')`: each code point below `0x100` becomes the
byte of the same value; any higher code point raises `UnicodeEncodeError`
(modelled as `none`). -/
def encode_latin1 (s : PyStr) : Option (List Nat) :=
  if s.all (· ≤ 0xFF) then some s else none

/-- The round-trip `text.encode('latin-1').decode('utf-8')` used by
`fix_mojibake`; `none` models either exception being raised. -/
def latin1_utf8_roundtrip (s : PyStr) : Option PyStr :=
  (encode_latin1 s).bind utf8Decode

/-- Is `c` in the Latin-1 extended range `U+0080..U+00FF` matched by the
fallback pattern of `fix_mojibake`? -/
def isMojibakeChar (c : Nat) : Bool := 0x80 ≤ c && c ≤ 0xFF

/-- `fix_segment` from `fix_mojibake`: re-encode/re-decode one matched run,
returning the run unchanged when the round-trip raises. -/
def fix_segment (seg : PyStr) : PyStr :=
  match latin1_utf8_roundtrip seg with
  | some r => r
  | none => seg

/-- One left-to-right pass implementing the fallback substitution of
`fix_mojibake` over maximal runs of chars in `U+0080..U+00FF`:
`run` accumulates (reversed) the current run of matched characters, which is
flushed through `fix_segment` at the first non-matching character or at the
end of the string. -/
def mojibakeSubAux (run : PyStr) : PyStr → PyStr
  | [] => fix_segment run.reverse
  | c :: cs =>
    if isMojibakeChar c then mojibakeSubAux (c :: run) cs
    else fix_segment run.reverse ++ c :: mojibakeSubAux [] cs

/-- The fallback branch of `fix_mojibake`: substitute each maximal run of
characters in `U+0080..U+00FF` by its repaired form, leaving everything else
untouched. -/
def fixMojibakeRuns (s : PyStr) : PyStr := mojibakeSubAux [] s

/-- `fix_mojibake` from `databricks_endpoint.py`: empty strings are returned
as-is; otherwise try the whole-string `latin-1`/`utf-8` round-trip, falling
back to per-run repair when the whole string fails to round-trip. -/
def fix_mojibake (text : PyStr) : PyStr :=
  if text = [] then text
  else
    match latin1_utf8_roundtrip text with
    | some r => r
    | none => fixMojibakeRuns text

/-- A JSON-like Python value, as passed around in chunks and payloads. -/
inductive JVal where
  | jnull
  | jbool (b : Bool)
  | jnum (n : Int)
  | jstr (s : PyStr)
  | jarr (items : List JVal)
  | jobj (fields : List (String × JVal))

/-- A Python dict with string keys, as an association list (keys unique by
construction in all values the code builds). -/
abbrev JObj := List (String × JVal)

/-- Python `d.get(k)`: the first value bound to `k`, if any. -/
def dget (d : JObj) (k : String) : Option JVal :=
  (d.find? (fun kv => kv.1 = k)).map (·.2)

/-- Python truthiness of a JSON-like value (`if not x`). -/
def truthy : JVal → Bool
  | .jnull => false
  | .jbool b => b
  | .jnum n => n != 0
  | .jstr s => !s.isEmpty
  | .jarr xs => !xs.isEmpty
  | .jobj fs => !fs.isEmpty

/-- The kinds of Python exception the translated code can raise. -/
inductive PyErr where
  | attributeError
  | typeError
  | keyError
  deriving DecidableEq, Repr

/-- Modelled rendering `str(e)` of a raised exception (the code only logs or
embeds this text; no claim depends on its exact content). -/
def pyErrText : PyErr → PyStr
  | .attributeError => pystr "AttributeError"
  | .typeError => pystr "TypeError"
  | .keyError => pystr "KeyError"

/-- The `text_parts` loop of `convert_chat_completion_chunk`: collect, in
order, each plain string item and the `text` field (defaulting to `''`) of
each dict item tagged `"type": "text"`; every other item is skipped. -/
def collectTextParts (items : List JVal) : List JVal :=
  items.foldr
    (fun item acc =>
      match item with
      | .jobj f =>
        match dget f "type" with
        | some (.jstr t) =>
          if t = pystr "text" then ((dget f "text").getD (.jstr [])) :: acc
          else acc
        | _ => acc
      | .jstr s => .jstr s :: acc
      | _ => acc)
    []

/-- Python `''.join(parts)`: concatenates string parts, raising `TypeError`
(modelled as `none`) if any part is not a string. -/
def joinStrParts : List JVal → Option PyStr
  | [] => some []
  | .jstr s :: rest => (joinStrParts rest).map (s ++ ·)
  | _ :: _ => none

/-- The agent-format event dict built by `convert_chat_completion_chunk`. -/
def outputTextDelta (text : PyStr) : JObj :=
  [("type", .jstr (pystr "response.output_text.delta")),
   ("delta", .jstr text)]

/-- The first guard of `convert_chat_completion_chunk`:
`chunk.get('object') != 'chat.completion.chunk'`. -/
def isCompletionChunkTag (v : Option JVal) : Bool :=
  match v with
  | some (.jstr t) => t = pystr "chat.completion.chunk"
  | _ => false

/-- `convert_chat_completion_chunk` from `databricks_endpoint.py`.

Skips (returns `.ok none` for) chunks not tagged `chat.completion.chunk`,
chunks with falsy `choices`, and chunks whose `choices[0].delta.content` is
absent, falsy, or an empty string after list concatenation; otherwise emits
the single agent-format delta dict carrying the repaired text.  Python
dynamic-typing failures (subscripting a non-list, `.get` on a non-dict,
joining non-strings, `fix_mojibake` on a non-string) surface as `.error`. -/
def convert_chat_completion_chunk (chunk : JObj) : Except PyErr (Option JObj) :=
  if !isCompletionChunkTag (dget chunk "object") then
    .ok none
  else
    let choices := (dget chunk "choices").getD (.jarr [])
    if !truthy choices then .ok none
    else
      match choices with
      | .jarr (c0 :: _) =>
        match c0 with
        | .jobj c =>
          match (dget c "delta").getD (.jobj []) with
          | .jobj d =>
            match dget d "content" with
            | none => .ok none
            | some content0 =>
              if !truthy content0 then .ok none
              else
                match content0 with
                | .jarr items =>
                  match joinStrParts (collectTextParts items) with
                  | none => .error .typeError
                  | some s =>
                    if s.isEmpty then .ok none
                    else .ok (some (outputTextDelta (fix_mojibake s)))
                | .jstr s => .ok (some (outputTextDelta (fix_mojibake s)))
                | _ => .error .attributeError
          | _ => .error .attributeError
        | _ => .error .attributeError
      | .jobj _ => .error .keyError
      | _ => .error .typeError

/-- The two endpoint wire formats the handler distinguishes; the cache stores
the strings `'agent'` and `'chat_completion'`, modelled as this type. -/
inductive EndpointFormat where
  | agent
  | chat_completion
  deriving DecidableEq, Repr

/-- One rendered SSE line of `predict_stream`: either `data: <json>\n\n` for
an event object, or the terminal sentinel `data: [DONE]\n\n`. -/
inductive OutLine where
  | dataJson (j : JVal)
  | dataDone

/-- `format_chunk_for_sse` from `databricks_endpoint.py`: chat-completion
chunks are converted (and skipped when the converter returns `None`);
agent-format chunks pass through unchanged. -/
def format_chunk_for_sse (chunk : JObj) (endpoint_format : EndpointFormat) :
    Except PyErr (Option OutLine) :=
  match endpoint_format with
  | .chat_completion =>
    match convert_chat_completion_chunk chunk with
    | .error e => .error e
    | .ok none => .ok none
    | .ok (some converted) => .ok (some (.dataJson (.jobj converted)))
  | .agent => .ok (some (.dataJson (.jobj chunk)))

/-- Lower-case hexadecimal digit. -/
def hexDigitChar (n : Nat) : Char :=
  if n < 10 then Char.ofNat (48 + n) else Char.ofNat (87 + n)

/-- Four-digit hexadecimal rendering, as in a JSON `\uXXXX` escape. -/
def hex4 (n : Nat) : List Char :=
  [hexDigitChar (n / 4096 % 16), hexDigitChar (n / 256 % 16),
   hexDigitChar (n / 16 % 16), hexDigitChar (n % 16)]

/-- A JSON `\uXXXX` escape. -/
def uEsc (n : Nat) : List Char := '\\' :: 'u' :: hex4 n

/-- Escaping of one code point by Python `json.dumps` (default
`ensure_ascii=True`): two-character escapes for the JSON specials, `\uXXXX`
for other control and all non-ASCII characters, surrogate pairs above
`U+FFFF`. -/
def jsonEscapeChar (c : Nat) : List Char :=
  if c = 0x22 then ['\\', '"']
  else if c = 0x5C then ['\\', '\\']
  else if c = 0x08 then ['\\', 'b']
  else if c = 0x09 then ['\\', 't']
  else if c = 0x0A then ['\\', 'n']
  else if c = 0x0C then ['\\', 'f']
  else if c = 0x0D then ['\\', 'r']
  else if c < 0x20 then uEsc c
  else if c ≤ 0x7E then [Char.ofNat c]
  else if c ≤ 0xFFFF then uEsc c
  else uEsc (0xD800 + (c - 0x10000) / 0x400) ++ uEsc (0xDC00 + (c - 0x10000) % 0x400)

/-- Python `json.dumps` on one string. -/
def jsonDumpStr (s : PyStr) : String :=
  String.mk ('"' :: (s.map jsonEscapeChar).flatten ++ ['"'])

/-- Join rendered items with a separator, as `json.dumps` does. -/
def joinWithSep (sep : String) : List String → String
  | [] => ""
  | [x] => x
  | x :: y :: rest => x ++ sep ++ joinWithSep sep (y :: rest)

mutual

/-- Python `json.dumps` with its default separators and `ensure_ascii=True`,
on the JSON-like values the handler serializes. -/
def json_dumps : JVal → String
  | .jnull => "null"
  | .jbool true => "true"
  | .jbool false => "false"
  | .jnum n => toString n
  | .jstr s => jsonDumpStr s
  | .jarr xs => "[" ++ joinWithSep ", " (jsonDumpsList xs) ++ "]"
  | .jobj fs => "\x7b" ++ joinWithSep ", " (jsonDumpsObj fs) ++ "\x7d"

/-- `json.dumps` rendering of the items of a JSON array. -/
def jsonDumpsList : List JVal → List String
  | [] => []
  | x :: xs => json_dumps x :: jsonDumpsList xs

/-- `json.dumps` rendering of the `"key": value` fields of a JSON object. -/
def jsonDumpsObj : List (String × JVal) → List String
  | [] => []
  | (k, v) :: fs => (jsonDumpStr (pystr k) ++ ": " ++ json_dumps v) :: jsonDumpsObj fs

end

/-- Render one yielded line of `predict_stream` as the client sees it. -/
def renderLine : OutLine → String
  | .dataJson j => "data: " ++ json_dumps j ++ "\n\n"
  | .dataDone => "data: [DONE]\n\n"

/-- The process-wide `_endpoint_format_cache`, keyed by endpoint name.
An endpoint absent from the mapping is in the `Unprobed` state. -/
abbrev FormatCache := List (PyStr × EndpointFormat)

/-- `_endpoint_format_cache.get(endpoint_name)`. -/
def cacheGet : FormatCache → PyStr → Option EndpointFormat
  | [], _ => none
  | (k, v) :: rest, ep => if k = ep then some v else cacheGet rest ep

/-- `_endpoint_format_cache[endpoint_name] = fmt` (dict assignment: replace
the existing binding or append a new one). -/
def cacheSet : FormatCache → PyStr → EndpointFormat → FormatCache
  | [], ep, f => [(ep, f)]
  | (k, v) :: rest, ep, f =>
    if k = ep then (ep, f) :: rest else (k, v) :: cacheSet rest ep f

/-- Conversation messages as sent by the client: a list of JSON objects
(each `{role, content}`). -/
abbrev Messages := List JObj

/-- `DatabricksEndpointHandler._build_agent_inputs`. -/
def build_agent_inputs (messages : Messages) : JObj :=
  [("input", .jarr (messages.map .jobj)),
   ("databricks_options", .jobj [("return_trace", .jbool true)])]

/-- `DatabricksEndpointHandler._build_chat_completion_inputs`. -/
def build_chat_completion_inputs (messages : Messages) : JObj :=
  [("messages", .jarr (messages.map .jobj)),
   ("stream", .jbool true)]

/-- `DatabricksEndpointHandler._get_inputs`: chat-completion payload iff the
cache maps the endpoint to `'chat_completion'`, agent payload otherwise. -/
def get_inputs (cache : FormatCache) (messages : Messages) (endpoint_name : PyStr) :
    JObj :=
  if cacheGet cache endpoint_name = some .chat_completion then
    build_chat_completion_inputs messages
  else build_agent_inputs messages

/-- Is `needle` a contiguous substring of `hay` (Python `needle in hay`)? -/
def substr (needle : PyStr) : PyStr → Bool
  | [] => needle.isEmpty
  | c :: rest => needle.isPrefixOf (c :: rest) || substr needle rest

/-- First format-mismatch signature: `Missing required Chat parameter:
'messages'`. -/
def mismatchSig1 : PyStr :=
  pystr "Missing required Chat parameter: " ++ apos ++ pystr "messages" ++ apos

/-- Second format-mismatch signature: `Model is missing inputs
['messages']`. -/
def mismatchSig2 : PyStr :=
  pystr "Model is missing inputs [" ++ apos ++ pystr "messages" ++ apos ++ pystr "]"

/-- First half of the third format-mismatch signature: `extra inputs:
['input']`. -/
def mismatchSig3 : PyStr :=
  pystr "extra inputs: [" ++ apos ++ pystr "input" ++ apos ++ pystr "]"

/-- The `needs_chat_format` test of `consume_sync_generator`: substring-match
the raised error text against the fixed mismatch signatures. -/
def needs_chat_format (error_str : PyStr) : Bool :=
  substr mismatchSig1 error_str || substr mismatchSig2 error_str ||
    (substr mismatchSig3 error_str && substr (pystr "messages") error_str)

/-- One tagged message placed on the bridge queue by the worker thread. -/
inductive QMsg where
  | chunk (c : JObj) (fmt : EndpointFormat)
  | done (fmt : EndpointFormat)
  | error (msg : PyStr) (fmt : EndpointFormat)

/-- Is this queue message terminal (`done` or `error`)? -/
def isTerminal : QMsg → Bool
  | .chunk _ _ => false
  | .done _ => true
  | .error _ _ => true

/-- The behaviour of one upstream call `client.predict_stream(...)` for a
given payload: either a finite chunk stream that completes, or one that
yields some chunks and then raises with the given error text. -/
inductive StreamResult where
  | success (chunks : List JObj)
  | failure (chunks : List JObj) (err : PyStr)

/-- Did the upstream attempt run to completion? -/
def StreamResult.isSuccess : StreamResult → Bool
  | .success _ => true
  | .failure _ _ => false

/-- The upstream client, as an oracle from request payload to the stream it
produces for this logical request. -/
abbrev Upstream := JObj → StreamResult

/-- `stream_with_format` from `predict_stream`: pull every chunk from the
upstream response, pushing `('chunk', c, fmt)` for each, then `('done', fmt)`;
if the upstream raises mid-stream, the messages already pushed stay on the
queue and the exception text propagates (second component). -/
def stream_with_format (up : Upstream) (inputs : JObj) (fmt : EndpointFormat) :
    List QMsg × Option PyStr :=
  match up inputs with
  | .success cs => (cs.map (QMsg.chunk · fmt) ++ [QMsg.done fmt], none)
  | .failure cs e => (cs.map (QMsg.chunk · fmt), some e)

/-- The result of one run of the worker thread: the queue contents it pushed
(in FIFO order), the format cache it leaves behind, and the payload of each
upstream attempt it made, in order. -/
structure WorkerRun where
  queue : List QMsg
  cache : FormatCache
  attempts : List JObj

/-- `consume_sync_generator` from `predict_stream`: with a cached format, one
direct attempt using that format (errors surfaced in-stream, cache untouched);
otherwise probe with the agent payload, cache `agent` on success, on a
recognized mismatch error retry once with the chat-completion payload
(caching `chat_completion` only if the retry completes), and on any other
error surface it in-stream with nothing cached. -/
def consume_sync_generator (up : Upstream) (cache : FormatCache)
    (endpoint_name : PyStr) (messages : Messages) : WorkerRun :=
  match cacheGet cache endpoint_name with
  | some cached_format =>
    let inputs := get_inputs cache messages endpoint_name
    match stream_with_format up inputs cached_format with
    | (q, none) => ⟨q, cache, [inputs]⟩
    | (q, some e) => ⟨q ++ [QMsg.error e cached_format], cache, [inputs]⟩
  | none =>
    let agentIn := build_agent_inputs messages
    match stream_with_format up agentIn .agent with
    | (q, none) => ⟨q, cacheSet cache endpoint_name .agent, [agentIn]⟩
    | (q, some error_str) =>
      if needs_chat_format error_str then
        let chatIn := build_chat_completion_inputs messages
        match stream_with_format up chatIn .chat_completion with
        | (q2, none) =>
          ⟨q ++ q2, cacheSet cache endpoint_name .chat_completion, [agentIn, chatIn]⟩
        | (q2, some retry_e) =>
          ⟨q ++ q2 ++ [QMsg.error retry_e .chat_completion], cache, [agentIn, chatIn]⟩
      else ⟨q ++ [QMsg.error error_str .agent], cache, [agentIn]⟩

/-- The in-stream error event dict `{"type": "error", "error": msg}`. -/
def errEvent (msg : PyStr) : JVal :=
  .jobj [("type", .jstr (pystr "error")), ("error", .jstr msg)]

/-- The consumer loop of `predict_stream`: pop queue messages in order,
format and yield chunk messages (skipping `None` conversions), stop at the
first terminal message after yielding its line(s); a formatting exception is
caught by the surrounding `except` and rendered as an in-stream error
followed by the `[DONE]` sentinel. -/
def consume_queue : List QMsg → List OutLine
  | [] => []
  | QMsg.chunk c fmt :: rest =>
    match format_chunk_for_sse c fmt with
    | .ok (some line) => line :: consume_queue rest
    | .ok none => consume_queue rest
    | .error e => [.dataJson (errEvent (pyErrText e)), .dataDone]
  | QMsg.error msg _ :: _ => [.dataJson (errEvent msg), .dataDone]
  | QMsg.done _ :: _ => [.dataDone]

/-- `DatabricksEndpointHandler.predict_stream`, end to end for one logical
stream: run the worker against the upstream oracle, then consume the queue;
returns the yielded lines and the cache left behind. -/
def predict_stream (up : Upstream) (cache : FormatCache) (endpoint_name : PyStr)
    (messages : Messages) : List OutLine × FormatCache :=
  let run := consume_sync_generator up cache endpoint_name messages
  (consume_queue run.queue, run.cache)

/-- Join `PyStr` pieces with a separator. -/
def joinPyStr (sep : PyStr) : List PyStr → PyStr
  | [] => []
  | [x] => x
  | x :: y :: rest => x ++ sep ++ joinPyStr sep (y :: rest)

mutual

/-- Modelled Python `repr` of a JSON-like value (list/dict rendering with
single-quoted strings; string-escape corner cases elided — no claim depends
on this text). -/
def pyRepr : JVal → PyStr
  | .jnull => pystr "None"
  | .jbool true => pystr "True"
  | .jbool false => pystr "False"
  | .jnum n => pystr (toString n)
  | .jstr s => apos ++ s ++ apos
  | .jarr xs => pystr "[" ++ joinPyStr (pystr ", ") (pyReprList xs) ++ pystr "]"
  | .jobj fs =>
    pystr "\x7b" ++ joinPyStr (pystr ", ") (pyReprObj fs) ++ pystr "\x7d"

/-- `repr` of the items of a Python list. -/
def pyReprList : List JVal → List PyStr
  | [] => []
  | x :: xs => pyRepr x :: pyReprList xs

/-- `repr` of the `key: value` fields of a Python dict. -/
def pyReprObj : List (String × JVal) → List PyStr
  | [] => []
  | (k, v) :: fs => (apos ++ pystr k ++ apos ++ pystr ": " ++ pyRepr v) :: pyReprObj fs

end

/-- Python `str()` of a JSON-like value, as interpolated by an f-string. -/
def pyStrOf : JVal → PyStr
  | .jstr s => s
  | v => pyRepr v

/-- Python `str()` of a `dict.get` result that may be `None`. -/
def pyStrOfOpt : Option JVal → PyStr
  | none => pystr "None"
  | some v => pyStrOf v

/-- The `ValueError` message raised by `DatabricksEndpointHandler.__init__`
when the agent config has no (truthy) `endpoint_name`. -/
def missingEndpointNameMsg (agent_config : JObj) : PyStr :=
  pystr "Agent " ++ pyStrOfOpt (dget agent_config "id") ++
    pystr " has no endpoint_name configured"

/-- A constructed `DatabricksEndpointHandler`: the stored config and the
resolved `endpoint_name` value. -/
structure DatabricksEndpointHandler where
  agent_config : JObj
  endpoint_name : JVal

/-- `DatabricksEndpointHandler.__init__`: store the config, read
`endpoint_name`, and raise `ValueError` (modelled as `.error` with the
exception text) when it is absent or falsy — before any network activity. -/
def handlerInit (agent_config : JObj) :
    Except PyStr DatabricksEndpointHandler :=
  match dget agent_config "endpoint_name" with
  | some v =>
    if truthy v then .ok ⟨agent_config, v⟩
    else .error (missingEndpointNameMsg agent_config)
  | none => .error (missingEndpointNameMsg agent_config)

/-- The handler classes registrable in `DEPLOYMENT_HANDLERS`. -/
inductive HandlerClass where
  | databricksEndpoint
  deriving DecidableEq, Repr

/-- The `DEPLOYMENT_HANDLERS` registry of `agent.py`: deployment type
`databricks-endpoint` maps to `DatabricksEndpointHandler`; nothing else is
registered. -/
def DEPLOYMENT_HANDLERS : List (PyStr × HandlerClass) :=
  [(pystr "databricks-endpoint", HandlerClass.databricksEndpoint)]

/-- `DEPLOYMENT_HANDLERS.get(deployment_type)`: a string key is looked up in
the registry; a hashable non-string key misses; an unhashable key (list or
dict) raises `TypeError`. -/
def registryGet (deployment_type : JVal) : Except PyStr (Option HandlerClass) :=
  match deployment_type with
  | .jstr s => .ok ((DEPLOYMENT_HANDLERS.find? (fun kv => kv.1 = s)).map (·.2))
  | .jarr _ => .error (pystr "TypeError: unhashable type")
  | .jobj _ => .error (pystr "TypeError: unhashable type")
  | _ => .ok none

/-- The value `invoke_endpoint` produces for the client: a structured error
dict, a streaming or non-streaming success, or an exception propagated out of
the route handler. -/
inductive DispatchResult where
  | errorResult (error message : PyStr)
  | streamingResponse (endpoint_name : JVal)
  | invokeResponse (endpoint_name : JVal)
  | raised (msg : PyStr)

/-- The outcome of one `invoke_endpoint` call, instrumented with whether a
handler object was successfully constructed and how many outbound upstream
calls the dispatcher itself performed before returning (a
`StreamingResponse` is returned lazily, before any upstream traffic). -/
structure DispatchOut where
  result : DispatchResult
  handlerConstructed : Bool
  upstreamCalls : Nat

/-- The `InvokeEndpointRequest` body of `agent.py`. -/
structure InvokeEndpointRequest where
  agent_id : PyStr
  messages : Messages
  stream : Bool

/-- `invoke_endpoint` from `src/server/routers/agent.py`, with
`config_loader.get_agent_by_id` abstracted as the external collaborator
`get_agent_by_id`.  Unknown agent id and unregistered deployment type return
structured error dicts synchronously; a handler-construction failure is
caught, logged, and re-raised. -/
def invoke_endpoint (get_agent_by_id : PyStr → Option JObj)
    (options : InvokeEndpointRequest) : DispatchOut :=
  match get_agent_by_id options.agent_id with
  | none =>
    ⟨.errorResult (pystr "Agent not found: " ++ options.agent_id)
       (pystr "Please check your agent configuration"), false, 0⟩
  | some agent =>
    let deployment_type :=
      (dget agent "deployment_type").getD (.jstr (pystr "databricks-endpoint"))
    match registryGet deployment_type with
    | .error e => ⟨.raised e, false, 0⟩
    | .ok none =>
      ⟨.errorResult (pystr "Unsupported deployment type")
         (pystr "Deployment type \"" ++ pyStrOf deployment_type ++
           pystr "\" is not supported. Supported types: " ++
           pystr "databricks-endpoint"), false, 0⟩
    | .ok (some HandlerClass.databricksEndpoint) =>
      match handlerInit agent with
      | .error e => ⟨.raised e, false, 0⟩
      | .ok h =>
        if options.stream then ⟨.streamingResponse h.endpoint_name, true, 0⟩
        else ⟨.invokeResponse h.endpoint_name, true, 1⟩

/-- The rendered stream ends with exactly one `data: [DONE]\n\n` sentinel:
it is the last line and occurs nowhere earlier. -/
def sseEndsOnce (ls : List OutLine) : Prop :=
  ∃ pre, ls = pre ++ [OutLine.dataDone] ∧ OutLine.dataDone ∉ pre

/-- Concrete fixture: a cache that already maps endpoint `ep` to the agent
format. -/
def witCacheAgent : FormatCache := [(pystr "ep", EndpointFormat.agent)]

/-- Concrete fixture: an upstream that completes immediately with no
chunks, whatever the payload. -/
def witUpOk : Upstream := fun _ => StreamResult.success []

/-- Concrete fixture: an upstream that rejects the agent payload with the
first format-mismatch signature and accepts the chat-completion payload
(recognized by its `messages` key). -/
def witUpFallback : Upstream := fun inputs =>
  match dget inputs "messages" with
  | some _ => StreamResult.success []
  | none => StreamResult.failure [] mismatchSig1

/-- Concrete fixture: an upstream that always raises with an error text
matching no mismatch signature. -/
def witUpBoom : Upstream := fun _ => StreamResult.failure [] (pystr "boom")

/-- Concrete fixture: the Scenario C chat-completion chunk whose list content
holds two text parts. -/
def witChunkScenC : JObj :=
  [("object", .jstr (pystr "chat.completion.chunk")),
   ("choices", .jarr [.jobj [("delta", .jobj [("content", .jarr
      [.jobj [("type", .jstr (pystr "text")), ("text", .jstr (pystr "Hi"))],
       .jobj [("type", .jstr (pystr "text")), ("text", .jstr (pystr " there"))]])])]])]

/-- Concrete fixture: a tagged chunk whose first choice has no `delta`. -/
def witChunkNoDelta : JObj :=
  [("object", .jstr (pystr "chat.completion.chunk")),
   ("choices", .jarr [.jobj [("finish_reason", .jstr (pystr "stop"))]])]

/-- Concrete fixture: an agent config with an id but no `endpoint_name`. -/
def witAgentNoEndpoint : JObj := [("id", .jstr (pystr "a1"))]

/-- Concrete fixture: an agent lookup returning `witAgentNoEndpoint` for
agent id `a1`. -/
def witLookupNoEndpoint : PyStr → Option JObj := fun aid =>
  if aid = pystr "a1" then some witAgentNoEndpoint else none

/-- Concrete fixture: an agent config naming the unregistered deployment
type `foo`. -/
def witAgentFoo : JObj :=
  [("id", .jstr (pystr "a2")),
   ("deployment_type", .jstr (pystr "foo")),
   ("endpoint_name", .jstr (pystr "ep"))]

/-- Concrete fixture: an agent lookup returning `witAgentFoo` for agent id
`a2`. -/
def witLookupFoo : PyStr → Option JObj := fun aid =>
  if aid = pystr "a2" then some witAgentFoo else none

/-- Unfolding equation: the consumer on a chunk message whose formatting
succeeds with a line. -/
theorem consume_queue_chunk_some (c : JObj) (f : EndpointFormat)
    (rest : List QMsg) (l : OutLine)
    (hf : format_chunk_for_sse c f = .ok (some l)) :
    consume_queue (QMsg.chunk c f :: rest) = l :: consume_queue rest := by
  rw [consume_queue, hf]

/-- Unfolding equation: the consumer on a chunk message whose formatting
returns `None` (the chunk is skipped). -/
theorem consume_queue_chunk_none (c : JObj) (f : EndpointFormat)
    (rest : List QMsg) (hf : format_chunk_for_sse c f = .ok none) :
    consume_queue (QMsg.chunk c f :: rest) = consume_queue rest := by
  rw [consume_queue, hf]

/-- Unfolding equation: the consumer on a chunk message whose formatting
raises (caught by the outer `except`, which yields an error event and the
sentinel, then stops). -/
theorem consume_queue_chunk_err (c : JObj) (f : EndpointFormat)
    (rest : List QMsg) (e : PyErr) (hf : format_chunk_for_sse c f = .error e) :
    consume_queue (QMsg.chunk c f :: rest) =
      [.dataJson (errEvent (pyErrText e)), .dataDone] := by
  rw [consume_queue, hf]

/-- Unfolding equation: the consumer stops at an `error` terminal. -/
theorem consume_queue_error_cons (msg : PyStr) (f : EndpointFormat)
    (rest : List QMsg) :
    consume_queue (QMsg.error msg f :: rest) =
      [.dataJson (errEvent msg), .dataDone] := rfl

/-- Unfolding equation: the consumer stops at a `done` terminal. -/
theorem consume_queue_done_cons (f : EndpointFormat) (rest : List QMsg) :
    consume_queue (QMsg.done f :: rest) = [.dataDone] := rfl

/-- A byte list of ASCII values decodes to itself under strict UTF-8. -/
theorem utf8Decode_ascii (s : List Nat) (h : ∀ c ∈ s, c < 0x80) :
    utf8Decode s = some s := by
  induction s with
  | nil => rfl
  | cons b bs ih =>
    have hb : b ≤ 0x7F := Nat.le_of_lt_succ (h b (List.mem_cons_self b bs))
    have ihe := ih (fun c hc => h c (List.mem_cons_of_mem b hc))
    rw [utf8Decode, if_pos hb, ihe]
    rfl

/-- The fallback substitution leaves a string without characters in
`U+0080..U+00FF` unchanged. -/
theorem mojibakeSubAux_noMoji (s : PyStr)
    (h : ∀ c ∈ s, isMojibakeChar c = false) :
    mojibakeSubAux [] s = s := by
  induction s with
  | nil => rfl
  | cons c cs ih =>
    have hc := h c (List.mem_cons_self c cs)
    have ihe := ih (fun x hx => h x (List.mem_cons_of_mem c hx))
    rw [mojibakeSubAux, hc]
    simp only [Bool.false_eq_true, if_false, ihe]
    rfl

/-- Writing a format for an endpoint makes the cache report that format for
that endpoint. -/
theorem cacheGet_cacheSet_self (c : FormatCache) (ep : PyStr)
    (f : EndpointFormat) : cacheGet (cacheSet c ep f) ep = some f := by
  induction c with
  | nil => rw [cacheSet, cacheGet, if_pos rfl]
  | cons kv rest ih =>
    obtain ⟨k, v⟩ := kv
    by_cases hk : k = ep
    · rw [cacheSet, if_pos hk, cacheGet, if_pos rfl]
    · rw [cacheSet, if_neg hk, cacheGet, if_neg hk, ih]

/-- A successfully formatted chunk always renders as a `data: <json>` line,
never as the `[DONE]` sentinel. -/
theorem format_chunk_for_sse_ok_shape (c : JObj) (fmt : EndpointFormat)
    (l : OutLine) (h : format_chunk_for_sse c fmt = .ok (some l)) :
    ∃ j, l = OutLine.dataJson j := by
  cases fmt with
  | agent =>
    refine ⟨.jobj c, ?_⟩
    simpa [format_chunk_for_sse] using h.symm
  | chat_completion =>
    unfold format_chunk_for_sse at h
    cases hcv : convert_chat_completion_chunk c with
    | error e => rw [hcv] at h; cases h
    | ok o =>
      rw [hcv] at h
      cases o with
      | none => cases h
      | some conv =>
        refine ⟨.jobj conv, ?_⟩
        cases h
        rfl

/-- Every message pushed for a pulled chunk is a non-terminal `chunk`
message. -/
theorem mem_map_chunk_nonterminal (cs : List JObj) (f : EndpointFormat) :
    ∀ m ∈ cs.map (QMsg.chunk · f), isTerminal m = false := by
  intro m hm
  rcases List.mem_map.1 hm with ⟨c, -, rfl⟩
  rfl

/-- The consumer never reads past the first terminal message: whatever
follows it on the queue leaves the yielded lines unchanged. -/
theorem consume_queue_stops_at_terminal (body : List QMsg) (t : QMsg)
    (hb : ∀ m ∈ body, isTerminal m = false) (ht : isTerminal t = true) :
    ∀ extra, consume_queue (body ++ t :: extra) = consume_queue (body ++ [t]) := by
  induction body with
  | nil =>
    intro extra
    cases t with
    | chunk c f => simp [isTerminal] at ht
    | done f => simp [consume_queue]
    | error m f => simp [consume_queue]
  | cons m body ih =>
    intro extra
    have hm := hb m (List.mem_cons_self m body)
    have ihe := ih (fun x hx => hb x (List.mem_cons_of_mem _ hx))
    cases m with
    | chunk c f =>
      rw [List.cons_append, List.cons_append]
      cases hf : format_chunk_for_sse c f with
      | error e => rw [consume_queue_chunk_err _ _ _ _ hf,
          consume_queue_chunk_err _ _ _ _ hf]
      | ok o =>
        cases o with
        | none => rw [consume_queue_chunk_none _ _ _ hf,
            consume_queue_chunk_none _ _ _ hf, ihe extra]
        | some l => rw [consume_queue_chunk_some _ _ _ _ hf,
            consume_queue_chunk_some _ _ _ _ hf, ihe extra]
    | done f => simp [isTerminal] at hm
    | error msg f => simp [isTerminal] at hm

/-- Prepending non-terminal chunk messages preserves the
single-`[DONE]`-at-the-end shape of the consumed output. -/
theorem consume_queue_chunks_endsOnce (body rest : List QMsg)
    (hb : ∀ m ∈ body, isTerminal m = false)
    (hr : sseEndsOnce (consume_queue rest)) :
    sseEndsOnce (consume_queue (body ++ rest)) := by
  induction body with
  | nil => simpa using hr
  | cons m body ih =>
    have hm := hb m (List.mem_cons_self m body)
    have ih2 := ih (fun x hx => hb x (List.mem_cons_of_mem _ hx))
    cases m with
    | chunk c f =>
      rw [List.cons_append]
      cases hf : format_chunk_for_sse c f with
      | error e =>
        rw [consume_queue_chunk_err _ _ _ _ hf]
        exact ⟨[.dataJson (errEvent (pyErrText e))], rfl, by simp⟩
      | ok o =>
        cases o with
        | none => rw [consume_queue_chunk_none _ _ _ hf]; exact ih2
        | some l =>
          rw [consume_queue_chunk_some _ _ _ _ hf]
          obtain ⟨pre, hpre, hmem⟩ := ih2
          obtain ⟨j, rfl⟩ := format_chunk_for_sse_ok_shape c f l hf
          exact ⟨.dataJson j :: pre, by rw [hpre, List.cons_append], by simp [hmem]⟩
    | done f => simp [isTerminal] at hm
    | error msg f => simp [isTerminal] at hm

/-- Consuming a queue that is non-terminal chunk messages followed by one
terminal message yields output ending in exactly one `[DONE]` sentinel. -/
theorem consume_queue_body_terminal_endsOnce (body : List QMsg) (t : QMsg)
    (hb : ∀ m ∈ body, isTerminal m = false) (ht : isTerminal t = true) :
    sseEndsOnce (consume_queue (body ++ [t])) := by
  refine consume_queue_chunks_endsOnce body [t] hb ?_
  cases t with
  | chunk c f => simp [isTerminal] at ht
  | done f => exact ⟨[], rfl, by simp⟩
  | error m f => exact ⟨[.dataJson (errEvent m)], rfl, by simp⟩

/-- The last rendered line of an output with the single-`[DONE]` shape is the
literal sentinel line. -/
theorem endsOnce_render_last (ls : List OutLine) (h : sseEndsOnce ls) :
    (ls.map renderLine).getLast? = some "data: [DONE]\n\n" := by
  obtain ⟨pre, rfl, -⟩ := h
  simp [renderLine]

/-- C1: once a non-`Unprobed` format is cached for an endpoint, every
subsequent `invoke_stream` call for that endpoint leaves the cache entry
untouched, makes exactly one upstream attempt whose payload is built directly
from the cached format via `_get_inputs` (agent payload for `agent`,
chat-completion payload for `chat_completion`), and performs no probe. -/
theorem cached_format_one_shot (up : Upstream) (cache : FormatCache)
    (ep : PyStr) (msgs : Messages) (fmt : EndpointFormat)
    (h : cacheGet cache ep = some fmt) :
    (consume_sync_generator up cache ep msgs).cache = cache ∧
    (consume_sync_generator up cache ep msgs).attempts =
      [get_inputs cache msgs ep] ∧
    (fmt = .agent → get_inputs cache msgs ep = build_agent_inputs msgs) ∧
    (fmt = .chat_completion →
      get_inputs cache msgs ep = build_chat_completion_inputs msgs) := by
  refine ⟨?_, ?_, ?_, ?_⟩
  · cases hu : up (get_inputs cache msgs ep) <;>
      simp [consume_sync_generator, h, stream_with_format, hu]
  · cases hu : up (get_inputs cache msgs ep) <;>
      simp [consume_sync_generator, h, stream_with_format, hu]
  · rintro rfl
    simp [get_inputs, h]
  · rintro rfl
    simp [get_inputs, h]

/-- C1 witness: with `ep` cached as agent format, one call leaves the cache
unchanged and makes a single agent-payload attempt. -/
theorem cached_format_one_shot_witness :
    (consume_sync_generator witUpOk witCacheAgent (pystr "ep") []).cache =
      witCacheAgent ∧
    (consume_sync_generator witUpOk witCacheAgent (pystr "ep") []).attempts =
      [get_inputs witCacheAgent [] (pystr "ep")] ∧
    (EndpointFormat.agent = .agent →
      get_inputs witCacheAgent [] (pystr "ep") = build_agent_inputs []) ∧
    (EndpointFormat.agent = .chat_completion →
      get_inputs witCacheAgent [] (pystr "ep") =
        build_chat_completion_inputs []) :=
  cached_format_one_shot witUpOk witCacheAgent (pystr "ep") [] .agent rfl

/-- C2: on a first request with no cached format, the worker attempts the
agent payload first; on success it caches `agent` after that single attempt;
on a failure matching a mismatch signature it retries exactly once with the
chat-completion payload `{messages, stream: true}` and caches
`chat_completion` iff the retry succeeds; and no run ever makes more than two
upstream attempts. -/
theorem probe_agent_first_fallback_once (up : Upstream) (cache : FormatCache)
    (ep : PyStr) (msgs : Messages)
    (h : cacheGet cache ep = none) :
    (consume_sync_generator up cache ep msgs).attempts.head? =
      some (build_agent_inputs msgs) ∧
    (∀ cs, up (build_agent_inputs msgs) = .success cs →
      (consume_sync_generator up cache ep msgs).cache =
        cacheSet cache ep .agent ∧
      (consume_sync_generator up cache ep msgs).attempts =
        [build_agent_inputs msgs]) ∧
    (∀ cs e, up (build_agent_inputs msgs) = .failure cs e →
      needs_chat_format e = true →
      (consume_sync_generator up cache ep msgs).attempts =
        [build_agent_inputs msgs, build_chat_completion_inputs msgs] ∧
      (cacheGet (consume_sync_generator up cache ep msgs).cache ep =
          some .chat_completion ↔
        (up (build_chat_completion_inputs msgs)).isSuccess = true)) ∧
    build_chat_completion_inputs msgs =
      [("messages", .jarr (msgs.map .jobj)), ("stream", .jbool true)] ∧
    (∀ cache2 : FormatCache,
      (consume_sync_generator up cache2 ep msgs).attempts.length ≤ 2) := by
  refine ⟨?_, ?_, ?_, rfl, ?_⟩
  · cases hu : up (build_agent_inputs msgs) with
    | success cs => simp [consume_sync_generator, h, stream_with_format, hu]
    | failure cs e =>
      by_cases hn : needs_chat_format e
      · cases hu2 : up (build_chat_completion_inputs msgs) <;>
          simp [consume_sync_generator, h, stream_with_format, hu, hn, hu2]
      · simp [consume_sync_generator, h, stream_with_format, hu, hn]
  · intro cs hu
    simp [consume_sync_generator, h, stream_with_format, hu]
  · intro cs e hu hn
    cases hu2 : up (build_chat_completion_inputs msgs) with
    | success cs2 =>
      refine ⟨?_, ?_⟩
      · simp [consume_sync_generator, h, stream_with_format, hu, hn, hu2]
      · simp [consume_sync_generator, h, stream_with_format, hu, hn, hu2,
          cacheGet_cacheSet_self, StreamResult.isSuccess]
    | failure cs2 e2 =>
      refine ⟨?_, ?_⟩
      · simp [consume_sync_generator, h, stream_with_format, hu, hn, hu2]
      · simp [consume_sync_generator, h, stream_with_format, hu, hn, hu2,
          StreamResult.isSuccess]
  · intro cache2
    cases hc2 : cacheGet cache2 ep with
    | some fmt =>
      cases hu : up (get_inputs cache2 msgs ep) <;>
        simp [consume_sync_generator, hc2, stream_with_format, hu]
    | none =>
      cases hu : up (build_agent_inputs msgs) with
      | success cs => simp [consume_sync_generator, hc2, stream_with_format, hu]
      | failure cs e =>
        by_cases hn : needs_chat_format e
        · cases hu2 : up (build_chat_completion_inputs msgs) <;>
            simp [consume_sync_generator, hc2, stream_with_format, hu, hn, hu2]
        · simp [consume_sync_generator, hc2, stream_with_format, hu, hn]

/-- C2 witness: an upstream that rejects the agent payload with a mismatch
signature and accepts the chat payload, starting from an empty cache. -/
theorem probe_agent_first_fallback_once_witness :
    (consume_sync_generator witUpFallback [] (pystr "ep") []).attempts.head? =
      some (build_agent_inputs []) ∧
    (∀ cs, witUpFallback (build_agent_inputs []) = .success cs →
      (consume_sync_generator witUpFallback [] (pystr "ep") []).cache =
        cacheSet [] (pystr "ep") .agent ∧
      (consume_sync_generator witUpFallback [] (pystr "ep") []).attempts =
        [build_agent_inputs []]) ∧
    (∀ cs e, witUpFallback (build_agent_inputs []) = .failure cs e →
      needs_chat_format e = true →
      (consume_sync_generator witUpFallback [] (pystr "ep") []).attempts =
        [build_agent_inputs [], build_chat_completion_inputs []] ∧
      (cacheGet (consume_sync_generator witUpFallback [] (pystr "ep") []).cache
          (pystr "ep") = some .chat_completion ↔
        (witUpFallback (build_chat_completion_inputs [])).isSuccess = true)) ∧
    build_chat_completion_inputs [] =
      [("messages", .jarr []), ("stream", .jbool true)] ∧
    (∀ cache2 : FormatCache,
      (consume_sync_generator witUpFallback cache2 (pystr "ep") []).attempts.length
        ≤ 2) := by
  have h := probe_agent_first_fallback_once witUpFallback [] (pystr "ep") [] rfl
  simpa using h

/-- C6: when the first probe fails, the cache is written only on a successful
retry: if the agent-format error matches no mismatch signature, or the
chat-completion retry itself fails, the worker surfaces a terminal in-stream
error, leaves the whole cache unchanged with the endpoint still `Unprobed`,
and a later call would probe with the agent payload again. -/
theorem failed_probe_caches_nothing (up : Upstream) (cache : FormatCache)
    (ep : PyStr) (msgs : Messages) (cs : List JObj) (e : PyStr)
    (h : cacheGet cache ep = none)
    (ha : up (build_agent_inputs msgs) = .failure cs e)
    (hb : needs_chat_format e = false ∨
      (up (build_chat_completion_inputs msgs)).isSuccess = false) :
    (consume_sync_generator up cache ep msgs).cache = cache ∧
    cacheGet (consume_sync_generator up cache ep msgs).cache ep = none ∧
    (∃ pre emsg f, (consume_sync_generator up cache ep msgs).queue =
      pre ++ [QMsg.error emsg f]) ∧
    (consume_sync_generator up cache ep msgs).attempts.head? =
      some (build_agent_inputs msgs) := by
  by_cases hn : needs_chat_format e
  · have hfail : (up (build_chat_completion_inputs msgs)).isSuccess = false := by
      rcases hb with hb | hb
      · rw [hn] at hb; cases hb
      · exact hb
    cases hu2 : up (build_chat_completion_inputs msgs) with
    | success cs2 => rw [hu2] at hfail; cases hfail
    | failure cs2 e2 =>
      refine ⟨?_, ?_, ⟨cs.map (QMsg.chunk · .agent) ++
        cs2.map (QMsg.chunk · .chat_completion), e2, .chat_completion, ?_⟩, ?_⟩ <;>
        simp [consume_sync_generator, h, stream_with_format, ha, hn, hu2,
          List.append_assoc]
  · refine ⟨?_, ?_, ⟨cs.map (QMsg.chunk · .agent), e, .agent, ?_⟩, ?_⟩ <;>
      simp [consume_sync_generator, h, stream_with_format, ha, hn]

/-- C6 witness: an upstream failing with an unrecognized error text, from an
empty cache: nothing cached, terminal error surfaced. -/
theorem failed_probe_caches_nothing_witness :
    (consume_sync_generator witUpBoom [] (pystr "ep") []).cache = [] ∧
    cacheGet (consume_sync_generator witUpBoom [] (pystr "ep") []).cache
      (pystr "ep") = none ∧
    (∃ pre emsg f, (consume_sync_generator witUpBoom [] (pystr "ep") []).queue =
      pre ++ [QMsg.error emsg f]) ∧
    (consume_sync_generator witUpBoom [] (pystr "ep") []).attempts.head? =
      some (build_agent_inputs []) :=
  failed_probe_caches_nothing witUpBoom [] (pystr "ep") [] [] (pystr "boom")
    rfl rfl (Or.inl (by decide))

/-- C3: for every stream, the worker pushes exactly one terminal message
(`done` or `error`), as the last queue entry after only chunk messages; the
consumer forwards nothing past that terminal (any further queue content
leaves the output unchanged); and the rendered output always ends with the
literal `data: [DONE]\n\n` line, whether the stream ended normally or with an
error. -/
theorem stream_terminal_protocol (up : Upstream) (cache : FormatCache)
    (ep : PyStr) (msgs : Messages) :
    ∃ body t,
      (consume_sync_generator up cache ep msgs).queue = body ++ [t] ∧
      isTerminal t = true ∧
      (∀ m ∈ body, isTerminal m = false) ∧
      (∀ extra, consume_queue (body ++ t :: extra) =
        consume_queue (body ++ [t])) ∧
      sseEndsOnce (consume_queue (body ++ [t])) ∧
      ((consume_queue (body ++ [t])).map renderLine).getLast? =
        some "data: [DONE]\n\n" := by
  have final : ∀ (body : List QMsg) (t : QMsg),
      (∀ m ∈ body, isTerminal m = false) → isTerminal t = true →
      isTerminal t = true ∧ (∀ m ∈ body, isTerminal m = false) ∧
      (∀ extra, consume_queue (body ++ t :: extra) =
        consume_queue (body ++ [t])) ∧
      sseEndsOnce (consume_queue (body ++ [t])) ∧
      ((consume_queue (body ++ [t])).map renderLine).getLast? =
        some "data: [DONE]\n\n" :=
    fun body t hb ht =>
      ⟨ht, hb, consume_queue_stops_at_terminal body t hb ht,
        consume_queue_body_terminal_endsOnce body t hb ht,
        endsOnce_render_last _ (consume_queue_body_terminal_endsOnce body t hb ht)⟩
  have memapp : ∀ (cs cs2 : List JObj) (f g : EndpointFormat),
      ∀ m ∈ cs.map (QMsg.chunk · f) ++ cs2.map (QMsg.chunk · g),
        isTerminal m = false := by
    intro cs cs2 f g m hm
    rcases List.mem_append.1 hm with h1 | h1
    · exact mem_map_chunk_nonterminal _ _ m h1
    · exact mem_map_chunk_nonterminal _ _ m h1
  cases hc : cacheGet cache ep with
  | some fmt =>
    cases hu : up (get_inputs cache msgs ep) with
    | success cs =>
      refine ⟨cs.map (QMsg.chunk · fmt), QMsg.done fmt, ?_,
        final _ _ (mem_map_chunk_nonterminal cs fmt) rfl⟩
      simp [consume_sync_generator, hc, stream_with_format, hu]
    | failure cs e =>
      refine ⟨cs.map (QMsg.chunk · fmt), QMsg.error e fmt, ?_,
        final _ _ (mem_map_chunk_nonterminal cs fmt) rfl⟩
      simp [consume_sync_generator, hc, stream_with_format, hu]
  | none =>
    cases hu : up (build_agent_inputs msgs) with
    | success cs =>
      refine ⟨cs.map (QMsg.chunk · .agent), QMsg.done .agent, ?_,
        final _ _ (mem_map_chunk_nonterminal cs .agent) rfl⟩
      simp [consume_sync_generator, hc, stream_with_format, hu]
    | failure cs e =>
      by_cases hn : needs_chat_format e
      · cases hu2 : up (build_chat_completion_inputs msgs) with
        | success cs2 =>
          refine ⟨cs.map (QMsg.chunk · .agent) ++
            cs2.map (QMsg.chunk · .chat_completion),
            QMsg.done .chat_completion, ?_, final _ _ (memapp cs cs2 _ _) rfl⟩
          simp [consume_sync_generator, hc, stream_with_format, hu, hn, hu2,
            List.append_assoc]
        | failure cs2 e2 =>
          refine ⟨cs.map (QMsg.chunk · .agent) ++
            cs2.map (QMsg.chunk · .chat_completion),
            QMsg.error e2 .chat_completion, ?_, final _ _ (memapp cs cs2 _ _) rfl⟩
          simp [consume_sync_generator, hc, stream_with_format, hu, hn, hu2,
            List.append_assoc]
      · refine ⟨cs.map (QMsg.chunk · .agent), QMsg.error e .agent, ?_,
          final _ _ (mem_map_chunk_nonterminal cs .agent) rfl⟩
        simp [consume_sync_generator, hc, stream_with_format, hu, hn]

/-- C4 counterexample: `fix_mojibake` is not idempotent.  The doubly
mojibake-encoded string `U+00C3 U+0083 U+00C2 U+00A9` (the UTF-8 bytes of
`Ã©`, themselves the Latin-1 misreading of `é`, misread as Latin-1 again)
repairs to `Ã©` in one application and to `é` in two, so applying the repair
twice differs from applying it once. -/
theorem fix_mojibake_not_idempotent :
    fix_mojibake (fix_mojibake [0xC3, 0x83, 0xC2, 0xA9]) ≠
      fix_mojibake [0xC3, 0x83, 0xC2, 0xA9] := by decide

/-- C4 (amended): every string whose characters all lie outside
`U+0080..U+00FF` — in particular every pure-ASCII string and every pure-emoji
string — is returned unchanged by `fix_mojibake`, and the repair is therefore
idempotent on such strings; full idempotence fails on doubly-encoded
mojibake. -/
theorem fix_mojibake_outside_latin1_unchanged (s : PyStr)
    (h : ∀ c ∈ s, c < 0x80 ∨ 0xFF < c) :
    fix_mojibake s = s ∧ fix_mojibake (fix_mojibake s) = fix_mojibake s := by
  have hfix : fix_mojibake s = s := by
    by_cases hs : s = []
    · rw [hs]; rfl
    · rw [fix_mojibake, if_neg hs]
      by_cases hall : s.all (· ≤ 0xFF)
      · have hascii : ∀ c ∈ s, c < 0x80 := by
          intro c hc
          rcases h c hc with h1 | h1
          · exact h1
          · have h2 : c ≤ 0xFF := by simpa using List.all_eq_true.1 hall c hc
            omega
        rw [latin1_utf8_roundtrip, encode_latin1, if_pos hall,
          Option.some_bind, utf8Decode_ascii s hascii]
      · rw [latin1_utf8_roundtrip, encode_latin1, if_neg hall, Option.none_bind]
        exact mojibakeSubAux_noMoji s (fun c hc => by
          rcases h c hc with h1 | h1 <;> simp [isMojibakeChar] <;> omega)
  exact ⟨hfix, by rw [hfix, hfix]⟩

/-- C4 amended-claim witness: `Hi 👋` (ASCII plus an emoji, nothing in
`U+0080..U+00FF`) is returned unchanged and re-applying the repair changes
nothing. -/
theorem fix_mojibake_outside_latin1_unchanged_witness :
    fix_mojibake (pystr "Hi 👋") = pystr "Hi 👋" ∧
    fix_mojibake (fix_mojibake (pystr "Hi 👋")) =
      fix_mojibake (pystr "Hi 👋") :=
  fix_mojibake_outside_latin1_unchanged (pystr "Hi 👋") (by decide)

/-- C7 counterexample: the spec's literal scenario input is the two-character
string `U+00E2 U+20AC` (`â€`, the Windows-1252 display form of the first two
em-dash bytes); the euro sign lies outside Latin-1, the whole-string
round-trip raises, the fallback leaves the lone `U+00E2` run unrepaired, and
the result is not the em dash. -/
theorem mojibake_display_pair_not_repaired :
    fix_mojibake [0xE2, 0x20AC] ≠ [0x2014] ∧
    fix_mojibake [0xE2, 0x20AC, 0x201D] ≠ [0x2014] := by decide

/-- C7 (amended): the genuine Latin-1 misreading of the em dash's UTF-8 bytes
is the three-character string `U+00E2 U+0080 U+0094`, which `fix_mojibake`
repairs to the em dash `U+2014`; the two-character display form
`U+00E2 U+20AC` is returned unchanged (not repaired); and `Hi 👋` is returned
unchanged. -/
theorem fix_mojibake_em_dash_scenario :
    fix_mojibake [0xE2, 0x80, 0x94] = [0x2014] ∧
    fix_mojibake [0xE2, 0x20AC] = [0xE2, 0x20AC] ∧
    fix_mojibake (pystr "Hi 👋") = pystr "Hi 👋" := by decide

/-- C5: the chat-completion translator emits nothing for a chunk whose object
tag is not `chat.completion.chunk`; emits nothing when
`choices[0].delta.content` is absent, falsy, or an empty string after list
concatenation; concatenates, in order, the string items and the `text` fields
of `"type": "text"` items of a list content, ignoring other items; and
otherwise emits exactly the one delta event carrying the repaired text (the
`Option` result makes more than one event impossible). -/
theorem chat_completion_chunk_translation :
    (∀ chunk : JObj, isCompletionChunkTag (dget chunk "object") = false →
      convert_chat_completion_chunk chunk = .ok none) ∧
    (∀ (chunk : JObj) (cs : List JVal) (c d : JObj),
      isCompletionChunkTag (dget chunk "object") = true →
      (dget chunk "choices").getD (.jarr []) = .jarr cs →
      cs.head? = some (.jobj c) →
      (dget c "delta").getD (.jobj []) = .jobj d →
      (dget d "content" = none ∨
        ∃ v, dget d "content" = some v ∧ truthy v = false) →
      convert_chat_completion_chunk chunk = .ok none) ∧
    (∀ (chunk : JObj) (cs : List JVal) (c d : JObj) (items : List JVal)
        (s : PyStr),
      isCompletionChunkTag (dget chunk "object") = true →
      (dget chunk "choices").getD (.jarr []) = .jarr cs →
      cs.head? = some (.jobj c) →
      (dget c "delta").getD (.jobj []) = .jobj d →
      dget d "content" = some (.jarr items) →
      joinStrParts (collectTextParts items) = some s →
      convert_chat_completion_chunk chunk =
        (if s.isEmpty then .ok none
         else .ok (some (outputTextDelta (fix_mojibake s))))) ∧
    (∀ (chunk : JObj) (cs : List JVal) (c d : JObj) (s : PyStr),
      isCompletionChunkTag (dget chunk "object") = true →
      (dget chunk "choices").getD (.jarr []) = .jarr cs →
      cs.head? = some (.jobj c) →
      (dget c "delta").getD (.jobj []) = .jobj d →
      dget d "content" = some (.jstr s) →
      convert_chat_completion_chunk chunk =
        (if s.isEmpty then .ok none
         else .ok (some (outputTextDelta (fix_mojibake s))))) := by
  refine ⟨?_, ?_, ?_, ?_⟩
  · intro chunk htag
    simp [convert_chat_completion_chunk, htag]
  · intro chunk cs c d htag hch hc0 hd hcontent
    obtain ⟨cs', rfl⟩ : ∃ cs', cs = .jobj c :: cs' := by
      cases cs with
      | nil => cases hc0
      | cons x xs =>
        injection hc0 with hx
        exact ⟨xs, by rw [hx]⟩
    have hchoices : truthy (.jarr (.jobj c :: cs')) = true := rfl
    rcases hcontent with hv | ⟨v, hv, hvf⟩
    · simp [convert_chat_completion_chunk, htag, hch, hd, hv, hchoices]
    · simp [convert_chat_completion_chunk, htag, hch, hd, hv, hvf, hchoices]
  · intro chunk cs c d items s htag hch hc0 hd hv hjoin
    obtain ⟨cs', rfl⟩ : ∃ cs', cs = .jobj c :: cs' := by
      cases cs with
      | nil => cases hc0
      | cons x xs =>
        injection hc0 with hx
        exact ⟨xs, by rw [hx]⟩
    have hchoices : truthy (.jarr (.jobj c :: cs')) = true := rfl
    cases items with
    | nil =>
      have hs : s = [] := by
        rw [show joinStrParts (collectTextParts ([] : List JVal)) = some []
          from rfl] at hjoin
        injection hjoin with h1
        exact h1.symm
      subst hs
      have hfal : truthy (JVal.jarr ([] : List JVal)) = false := rfl
      simp [convert_chat_completion_chunk, htag, hch, hd, hv, hfal, hchoices]
    | cons it its =>
      have htr : truthy (JVal.jarr (it :: its)) = true := rfl
      simp [convert_chat_completion_chunk, htag, hch, hd, hv, htr, hjoin,
        hchoices]
  · intro chunk cs c d s htag hch hc0 hd hv
    obtain ⟨cs', rfl⟩ : ∃ cs', cs = .jobj c :: cs' := by
      cases cs with
      | nil => cases hc0
      | cons x xs =>
        injection hc0 with hx
        exact ⟨xs, by rw [hx]⟩
    have hchoices : truthy (.jarr (.jobj c :: cs')) = true := rfl
    cases s with
    | nil =>
      have hfal : truthy (JVal.jstr ([] : PyStr)) = false := rfl
      simp [convert_chat_completion_chunk, htag, hch, hd, hv, hfal, hchoices]
    | cons a as =>
      have htr : truthy (JVal.jstr (a :: as)) = true := rfl
      simp [convert_chat_completion_chunk, htag, hch, hd, hv, htr, hchoices]

/-- C5 witness: the Scenario C chunk with two `"type": "text"` parts yields
the single delta event `Hi there`. -/
theorem chat_completion_chunk_translation_witness :
    convert_chat_completion_chunk witChunkScenC =
      .ok (some (outputTextDelta (fix_mojibake (pystr "Hi there")))) := by
  have h := chat_completion_chunk_translation.2.2.1 witChunkScenC
    [.jobj [("delta", .jobj [("content", .jarr
      [.jobj [("type", .jstr (pystr "text")), ("text", .jstr (pystr "Hi"))],
       .jobj [("type", .jstr (pystr "text")),
         ("text", .jstr (pystr " there"))]])])]]
    [("delta", .jobj [("content", .jarr
      [.jobj [("type", .jstr (pystr "text")), ("text", .jstr (pystr "Hi"))],
       .jobj [("type", .jstr (pystr "text")),
         ("text", .jstr (pystr " there"))]])])]
    [("content", .jarr
      [.jobj [("type", .jstr (pystr "text")), ("text", .jstr (pystr "Hi"))],
       .jobj [("type", .jstr (pystr "text")),
         ("text", .jstr (pystr " there"))]])]
    [.jobj [("type", .jstr (pystr "text")), ("text", .jstr (pystr "Hi"))],
     .jobj [("type", .jstr (pystr "text")), ("text", .jstr (pystr " there"))]]
    (pystr "Hi there") rfl rfl rfl rfl rfl rfl
  rw [h]
  rfl

/-- C10: the translator is total on malformed-but-tagged chunks: a tagged
chunk with an empty `choices` list, or whose first choice lacks a `delta`
field, or whose `delta` object lacks a `content` field, yields `.ok none` —
no event and no exception, so such a chunk never terminates the stream. -/
theorem translator_total_on_malformed :
    (∀ chunk : JObj, isCompletionChunkTag (dget chunk "object") = true →
      (dget chunk "choices").getD (.jarr []) = .jarr [] →
      convert_chat_completion_chunk chunk = .ok none) ∧
    (∀ (chunk : JObj) (cs : List JVal) (c : JObj),
      isCompletionChunkTag (dget chunk "object") = true →
      (dget chunk "choices").getD (.jarr []) = .jarr cs →
      cs.head? = some (.jobj c) →
      dget c "delta" = none →
      convert_chat_completion_chunk chunk = .ok none) ∧
    (∀ (chunk : JObj) (cs : List JVal) (c d : JObj),
      isCompletionChunkTag (dget chunk "object") = true →
      (dget chunk "choices").getD (.jarr []) = .jarr cs →
      cs.head? = some (.jobj c) →
      (dget c "delta").getD (.jobj []) = .jobj d →
      dget d "content" = none →
      convert_chat_completion_chunk chunk = .ok none) := by
  refine ⟨?_, ?_, ?_⟩
  · intro chunk htag hch
    have hfal : truthy (JVal.jarr ([] : List JVal)) = false := rfl
    simp [convert_chat_completion_chunk, htag, hch, hfal]
  · intro chunk cs c htag hch hc0 hdel
    obtain ⟨cs', rfl⟩ : ∃ cs', cs = .jobj c :: cs' := by
      cases cs with
      | nil => cases hc0
      | cons x xs =>
        injection hc0 with hx
        exact ⟨xs, by rw [hx]⟩
    have hchoices : truthy (.jarr (.jobj c :: cs')) = true := rfl
    have hget : dget ([] : JObj) "content" = none := rfl
    simp [convert_chat_completion_chunk, htag, hch, hdel, hchoices, hget]
  · intro chunk cs c d htag hch hc0 hd hv
    obtain ⟨cs', rfl⟩ : ∃ cs', cs = .jobj c :: cs' := by
      cases cs with
      | nil => cases hc0
      | cons x xs =>
        injection hc0 with hx
        exact ⟨xs, by rw [hx]⟩
    have hchoices : truthy (.jarr (.jobj c :: cs')) = true := rfl
    simp [convert_chat_completion_chunk, htag, hch, hd, hv, hchoices]

/-- C10 witness: a tagged chunk whose only choice carries just a
`finish_reason` (no `delta`) is skipped without an exception. -/
theorem translator_total_on_malformed_witness :
    convert_chat_completion_chunk witChunkNoDelta = .ok none :=
  translator_total_on_malformed.2.1 witChunkNoDelta
    [.jobj [("finish_reason", .jstr (pystr "stop"))]]
    [("finish_reason", .jstr (pystr "stop"))] rfl rfl rfl rfl

/-- C8 counterexample: for an agent config without `endpoint_name`, the
dispatcher does not return a structured error result — the `ValueError` from
handler construction is re-raised (`except ... raise`) and propagates to the
client. -/
theorem missing_endpoint_name_raises :
    (∀ e m, (invoke_endpoint witLookupNoEndpoint
      ⟨pystr "a1", [], true⟩).result ≠ DispatchResult.errorResult e m) ∧
    (invoke_endpoint witLookupNoEndpoint ⟨pystr "a1", [], true⟩).result =
      DispatchResult.raised (missingEndpointNameMsg witAgentNoEndpoint) := by
  constructor
  · intro e m hcontra
    have heq : (invoke_endpoint witLookupNoEndpoint
        ⟨pystr "a1", [], true⟩).result =
        DispatchResult.raised (missingEndpointNameMsg witAgentNoEndpoint) := rfl
    rw [heq] at hcontra
    cases hcontra
  · rfl

/-- C8 (amended): a missing agent config yields a structured error result
synchronously; an agent config without a truthy `endpoint_name` (under the
default `databricks-endpoint` deployment type) makes handler construction
fail with `ValueError` before any handler exists or any upstream call is
made, but the dispatcher re-raises that exception to the client instead of
returning a structured error result. -/
theorem invalid_agent_config_dispatch
    (get_agent_by_id : PyStr → Option JObj) (options : InvokeEndpointRequest) :
    (get_agent_by_id options.agent_id = none →
      invoke_endpoint get_agent_by_id options =
        ⟨.errorResult (pystr "Agent not found: " ++ options.agent_id)
          (pystr "Please check your agent configuration"), false, 0⟩) ∧
    (∀ agent, get_agent_by_id options.agent_id = some agent →
      (dget agent "deployment_type" = none ∨
        dget agent "deployment_type" =
          some (.jstr (pystr "databricks-endpoint"))) →
      (dget agent "endpoint_name" = none ∨
        ∃ v, dget agent "endpoint_name" = some v ∧ truthy v = false) →
      invoke_endpoint get_agent_by_id options =
        ⟨.raised (missingEndpointNameMsg agent), false, 0⟩) := by
  constructor
  · intro h
    simp [invoke_endpoint, h]
  · intro agent hagent hdt hen
    have hreg : registryGet ((dget agent "deployment_type").getD
        (.jstr (pystr "databricks-endpoint"))) =
        .ok (some HandlerClass.databricksEndpoint) := by
      rcases hdt with hdt | hdt <;>
        simp [hdt, registryGet, DEPLOYMENT_HANDLERS, List.find?]
    have hinit : handlerInit agent = .error (missingEndpointNameMsg agent) := by
      rcases hen with hen | ⟨v, hen, hvf⟩
      · simp [handlerInit, hen]
      · simp [handlerInit, hen, hvf]
    simp [invoke_endpoint, hagent, hreg, hinit]

/-- C8 amended-claim witness: the concrete config with only an `id`
propagates the `ValueError` with no handler constructed and no upstream
call. -/
theorem invalid_agent_config_dispatch_witness :
    invoke_endpoint witLookupNoEndpoint ⟨pystr "a1", [], true⟩ =
      ⟨.raised (missingEndpointNameMsg witAgentNoEndpoint), false, 0⟩ :=
  (invalid_agent_config_dispatch witLookupNoEndpoint
    ⟨pystr "a1", [], true⟩).2 witAgentNoEndpoint rfl (Or.inl rfl) (Or.inl rfl)

/-- C9: a request whose agent config names a deployment type absent from the
`DEPLOYMENT_HANDLERS` registry gets a structured error result synchronously:
no handler is constructed and the dispatcher performs zero outbound upstream
calls. -/
theorem unknown_deployment_type_structured_error
    (get_agent_by_id : PyStr → Option JObj) (options : InvokeEndpointRequest)
    (agent : JObj) (dt : PyStr)
    (hagent : get_agent_by_id options.agent_id = some agent)
    (hdt : dget agent "deployment_type" = some (.jstr dt))
    (hreg : dt ≠ pystr "databricks-endpoint") :
    invoke_endpoint get_agent_by_id options =
      ⟨.errorResult (pystr "Unsupported deployment type")
        (pystr "Deployment type \"" ++ dt ++
          pystr "\" is not supported. Supported types: " ++
          pystr "databricks-endpoint"), false, 0⟩ := by
  have hfind : registryGet (.jstr dt) = .ok none := by
    simp [registryGet, DEPLOYMENT_HANDLERS, List.find?, Ne.symm hreg]
  simp [invoke_endpoint, hagent, hdt, hfind, pyStrOf]

/-- C9 witness: requesting the concrete deployment type `foo` returns the
structured unsupported-deployment-type error with no handler and no
upstream call. -/
theorem unknown_deployment_type_structured_error_witness :
    invoke_endpoint witLookupFoo ⟨pystr "a2", [], true⟩ =
      ⟨.errorResult (pystr "Unsupported deployment type")
        (pystr "Deployment type \"" ++ pystr "foo" ++
          pystr "\" is not supported. Supported types: " ++
          pystr "databricks-endpoint"), false, 0⟩ :=
  unknown_deployment_type_structured_error witLookupFoo ⟨pystr "a2", [], true⟩
    witAgentFoo (pystr "foo") rfl rfl (by decide)

end DbxApp
